import Mathlib

/-!
Shallow embedding of `src/monitoring/condition_monitor.py` (the condition
monitoring engine of the repository) and proofs of the specification claims.

Modelling conventions:
* Python values flowing through probes/validators are modelled by `PyVal`
  (integers and strings suffice for the claims under study).
* Python exceptions are modelled by `Except String`: a probe or validator
  that "raises" returns `Except.error msg`.
* Wall-clock time is modelled as a natural number of milliseconds; Python's
  `int(time.time())` is `now / 1000` (floor of whole seconds) and
  `datetime.now()` is `now` itself.
* The Python dict `self.conditions` (insertion ordered, unique keys, upsert
  on assignment) is modelled as an insertion-ordered association list.
* Each per-condition asyncio task (`monitor_loop`) interleaves with mutations
  of the shared engine state at its await points; the loop semantics is given
  as a trace over a list of per-iteration snapshots (`LoopEnv`) of the shared
  state the loop body reads.
-/

/-- Alert severity levels, from the `AlertLevel` enum of the source. -/
inductive AlertLevel
| INFO
| WARNING
| ERROR
| CRITICAL
deriving DecidableEq, Repr

/-- Dynamic (Python) values returned by probes: integers or strings. -/
inductive PyVal
| int (n : Int)
| str (s : String)
deriving DecidableEq, Repr

/-- The `Alert` dataclass of the source. `timestamp` is in model milliseconds. -/
structure Alert where
  id : String
  level : AlertLevel
  message : String
  timestamp : Nat
  condition_name : String
  current_value : PyVal
  expected_range : String
deriving DecidableEq, Repr

/-- The `Condition` dataclass of the source. `check_function` models the
zero-argument probe (an exception is `Except.error`), `validator` the
predicate on the probed value (it can also raise). `check_interval` is in
model milliseconds (source default `5.0` seconds). -/
structure Condition where
  name : String
  description : String
  check_function : Unit → Except String PyVal
  validator : PyVal → Except String Bool
  alert_level : AlertLevel
  check_interval : Nat := 5000
  enabled : Bool := true

/-- State of the `ConditionMonitor` class: the condition registry (insertion
ordered, unique names), the append-only alert log, the running flag, and the
spawned loop tasks (each recorded by its condition's name). -/
structure ConditionMonitor where
  conditions : List Condition
  alerts : List Alert
  running : Bool
  tasks : List String

/-- Fresh engine state, as built by `ConditionMonitor.__init__`. -/
def ConditionMonitor.init : ConditionMonitor :=
  { conditions := [], alerts := [], running := false, tasks := [] }

/-- Upsert into the registry, modelling Python dict assignment
`self.conditions[condition.name] = condition` (replace in place if the key
exists, else append). -/
def dictInsert (cs : List Condition) (c : Condition) : List Condition :=
  if cs.any (fun c2 => c2.name == c.name) then
    cs.map (fun c2 => if c2.name == c.name then c else c2)
  else
    cs ++ [c]

/-- Membership test `condition_name in self.conditions`. -/
def dictContains (cs : List Condition) (name : String) : Bool :=
  cs.any (fun c => c.name == name)

/-- `ConditionMonitor.add_condition`. -/
def ConditionMonitor.add_condition (m : ConditionMonitor) (c : Condition) :
    ConditionMonitor :=
  { m with conditions := dictInsert m.conditions c }

/-- `ConditionMonitor.remove_condition`: delete by name if present. -/
def ConditionMonitor.remove_condition (m : ConditionMonitor) (name : String) :
    ConditionMonitor :=
  { m with conditions := m.conditions.filter (fun c => !(c.name == name)) }

/-- `ConditionMonitor.enable_condition`: set the flag of the named condition. -/
def ConditionMonitor.enable_condition (m : ConditionMonitor) (name : String)
    (enabled : Bool) : ConditionMonitor :=
  { m with conditions :=
      m.conditions.map (fun c => if c.name == name then { c with enabled } else c) }

/-- Alert built in `check_condition` when the validator rejects the probed
value. The id suffix is `int(time.time())`, i.e. whole seconds. -/
def ConditionMonitor.mkFailAlert (c : Condition) (v : PyVal) (now : Nat) : Alert :=
  { id := "alert_" ++ c.name ++ "_" ++ toString (now / 1000)
    level := c.alert_level
    message := "Condición \x27" ++ c.name ++ "\x27 falló: " ++ c.description
    timestamp := now
    condition_name := c.name
    current_value := v
    expected_range := "Según validador configurado" }

/-- Alert built in the `except` branch of `check_condition` when the probe
(or the validator) raises. -/
def ConditionMonitor.mkErrorAlert (c : Condition) (msg : String) (now : Nat) : Alert :=
  { id := "error_" ++ c.name ++ "_" ++ toString (now / 1000)
    level := AlertLevel.ERROR
    message := "Error verificando condición \x27" ++ c.name ++ "\x27: " ++ msg
    timestamp := now
    condition_name := c.name
    current_value := PyVal.str "ERROR"
    expected_range := "N/A" }

/-- Outcome of one evaluation in `check_condition`, given the probe's result:
`none` when the validator accepts, otherwise the alert to append. The `try`
block covers both the probe call and the validator call, so an exception from
either lands in the `except` branch. -/
def ConditionMonitor.evalOutcome (c : Condition) (probeResult : Except String PyVal)
    (now : Nat) : Option Alert :=
  match probeResult with
  | Except.error e => some (ConditionMonitor.mkErrorAlert c e now)
  | Except.ok v =>
    match c.validator v with
    | Except.error e => some (ConditionMonitor.mkErrorAlert c e now)
    | Except.ok true => none
    | Except.ok false => some (ConditionMonitor.mkFailAlert c v now)

/-- `ConditionMonitor.check_condition`: evaluate one condition at time `now`,
appending at most one alert to the log. -/
def ConditionMonitor.check_condition (m : ConditionMonitor) (c : Condition)
    (now : Nat) : ConditionMonitor :=
  match ConditionMonitor.evalOutcome c (c.check_function ()) now with
  | some a => { m with alerts := m.alerts ++ [a] }
  | none => m

/-- Comparator used by `get_alerts`: newest first (Python
`sorted(key=timestamp, reverse=True)`, a stable descending sort). -/
def tsDesc (a b : Alert) : Bool := decide (b.timestamp ≤ a.timestamp)

/-- `ConditionMonitor.get_alerts`: optionally filter by severity, sort newest
first (stably), truncate to `limit`. -/
def ConditionMonitor.get_alerts (m : ConditionMonitor) (level : Option AlertLevel)
    (limit : Nat) : List Alert :=
  let alerts := match level with
    | some l => m.alerts.filter (fun a : Alert => a.level == l)
    | none => m.alerts
  (alerts.mergeSort tsDesc).take limit

/-- `ConditionMonitor.clear_alerts`: empty the alert log. -/
def ConditionMonitor.clear_alerts (m : ConditionMonitor) : ConditionMonitor :=
  { m with alerts := [] }

/-- `ConditionMonitor.is_running`. -/
def ConditionMonitor.is_running (m : ConditionMonitor) : Bool := m.running

/-! ## Scheduling loop semantics

`monitor_loop` runs as one asyncio task per condition:

```
while self.running:
    if condition.enabled and condition.name in self.conditions:
        await self.check_condition(condition)
    await asyncio.sleep(condition.check_interval)
```

Between iterations (at the awaits) the shared engine state may be mutated by
other tasks, so each iteration reads a snapshot of the fields the body
consults: the running flag, whether the condition's name is still a registry
key, the shared condition object's `enabled` attribute, and the value the
probe would produce if invoked now. The semantics is the trace of observable
events the loop performs over a finite list of such snapshots (the list
length is the fuel: an empty remainder means we stop watching a still-live
loop, not that it terminated). -/

deriving instance DecidableEq for Except

/-- Snapshot of the shared state one loop iteration observes. -/
structure LoopEnv where
  running : Bool
  inRegistry : Bool
  enabled : Bool
  probeResult : Except String PyVal
  now : Nat
deriving DecidableEq, Repr

/-- Observable events of a scheduling loop. -/
inductive LoopEvent
| probe
| alertAppended (a : Alert)
| sleep
| exited
deriving DecidableEq, Repr

/-- Events of one `check_condition` call inside the loop: the probe is always
invoked first (inside the `try`), then at most one alert is appended,
mirroring `evalOutcome`. -/
def ConditionMonitor.checkEvents (c : Condition) (e : LoopEnv) : List LoopEvent :=
  LoopEvent.probe ::
    (match ConditionMonitor.evalOutcome c e.probeResult e.now with
     | some a => [LoopEvent.alertAppended a]
     | none => [])

/-- Trace semantics of `ConditionMonitor.monitor_loop` for one condition.
Each iteration first tests the running flag (`while self.running`): when
false the loop exits. Otherwise, when the condition is enabled and still a
registry key, it evaluates (`check_condition`), and in every case it then
sleeps for the condition's interval before the next iteration. -/
def ConditionMonitor.monitor_loop (c : Condition) : List LoopEnv → List LoopEvent
  | [] => []
  | e :: rest =>
    if e.running then
      (if e.enabled && e.inRegistry then ConditionMonitor.checkEvents c e else [])
        ++ LoopEvent.sleep :: ConditionMonitor.monitor_loop c rest
    else
      [LoopEvent.exited]

/-! ## Engine start and the default conditions

`_setup_default_conditions` registers four conditions whose probes read the
external system (psutil, random). Those externals are modelled by a `SysEnv`
of probe functions supplied to `start`; the names, severities, intervals and
validators are the source's. Numeric system readings are modelled as `PyVal`
integers; comparing a non-integer raises, as in Python. -/

/-- External system readings used by the default conditions (psutil CPU
percentage, available memory in MB, the simulated temperature, network byte
counters). -/
structure SysEnv where
  cpu_percent : Unit → Except String PyVal
  available_memory : Unit → Except String PyVal
  temperature : Unit → Except String PyVal
  net_bytes : Unit → Except String PyVal

/-- Python comparison `x < k` on a probed value: raises on a non-number. -/
def pyLt (v : PyVal) (k : Int) : Except String Bool :=
  match v with
  | PyVal.int n => Except.ok (decide (n < k))
  | PyVal.str _ => Except.error "TypeError"

/-- Python comparison `x > k` on a probed value: raises on a non-number. -/
def pyGt (v : PyVal) (k : Int) : Except String Bool :=
  match v with
  | PyVal.int n => Except.ok (decide (k < n))
  | PyVal.str _ => Except.error "TypeError"

/-- Python comparison `lo <= x <= hi` on a probed value. -/
def pyBetween (v : PyVal) (lo hi : Int) : Except String Bool :=
  match v with
  | PyVal.int n => Except.ok (decide (lo ≤ n) && decide (n ≤ hi))
  | PyVal.str _ => Except.error "TypeError"

/-- `ConditionMonitor._setup_default_conditions`: register the four built-in
conditions (upsert by name). -/
def ConditionMonitor.setup_default_conditions (env : SysEnv) (m : ConditionMonitor) :
    ConditionMonitor :=
  let cpu_condition : Condition :=
    { name := "cpu_usage"
      description := "Uso de CPU debe estar por debajo del 80%"
      check_function := env.cpu_percent
      validator := fun v => pyLt v 80
      alert_level := AlertLevel.WARNING
      check_interval := 10000 }
  let memory_condition : Condition :=
    { name := "memory_available"
      description := "Memoria disponible debe ser mayor a 100MB"
      check_function := env.available_memory
      validator := fun v => pyGt v 100
      alert_level := AlertLevel.ERROR
      check_interval := 15000 }
  let temp_condition : Condition :=
    { name := "temperature_sensor"
      description := "Temperatura del sensor debe estar entre 20-80°C"
      check_function := env.temperature
      validator := fun v => pyBetween v 20 80
      alert_level := AlertLevel.CRITICAL
      check_interval := 5000 }
  let network_condition : Condition :=
    { name := "network_connectivity"
      description := "Debe haber actividad de red"
      check_function := env.net_bytes
      validator := fun v => pyGt v 0
      alert_level := AlertLevel.WARNING
      check_interval := 20000 }
  ((((m.add_condition cpu_condition).add_condition memory_condition).add_condition
      temp_condition).add_condition network_condition)

/-- `ConditionMonitor.start`: set the running flag, register the default
conditions, then spawn one `monitor_loop` task per registered condition
(recorded by the condition's name in `tasks`). There is no guard against the
engine already running. -/
def ConditionMonitor.start (env : SysEnv) (m : ConditionMonitor) : ConditionMonitor :=
  let m1 : ConditionMonitor := { m with running := true }
  let m2 := ConditionMonitor.setup_default_conditions env m1
  { m2 with tasks := m2.tasks ++ m2.conditions.map (fun c => c.name) }

/-! ## Concrete fixtures used by counterexamples and witnesses -/

/-- The `always_fail` condition of the end-to-end scenario: interval 0.1s,
probe returning constant 0, validator `x > 10`. -/
def cAlways : Condition :=
  { name := "always_fail"
    description := "siempre falla"
    check_function := fun _ => Except.ok (PyVal.int 0)
    validator := fun v => pyGt v 10
    alert_level := AlertLevel.WARNING
    check_interval := 100 }

/-- A condition whose probe raises. -/
def cBoom : Condition :=
  { name := "boom"
    description := "sonda que falla"
    check_function := fun _ => Except.error "boom"
    validator := fun v => pyGt v 10
    alert_level := AlertLevel.INFO
    check_interval := 100 }

/-- A condition whose probe succeeds but whose validator raises. -/
def cValBoom : Condition :=
  { name := "valboom"
    description := "validador que falla"
    check_function := fun _ => Except.ok (PyVal.int 5)
    validator := fun _ => Except.error "TypeError"
    alert_level := AlertLevel.CRITICAL
    check_interval := 100 }

/-- Snapshot: engine running, condition registered and enabled, probe yields 0. -/
def envActive : LoopEnv :=
  { running := true, inRegistry := true, enabled := true
    probeResult := Except.ok (PyVal.int 0), now := 10100 }

/-- Snapshot: engine running but the condition was removed from the registry. -/
def envRemoved : LoopEnv :=
  { running := true, inRegistry := false, enabled := true
    probeResult := Except.ok (PyVal.int 0), now := 10100 }

/-- Snapshot: engine running, condition registered but disabled. -/
def envDisabled : LoopEnv :=
  { running := true, inRegistry := true, enabled := false
    probeResult := Except.ok (PyVal.int 0), now := 10100 }

/-- Snapshot: engine stopped. -/
def envStopped : LoopEnv :=
  { running := false, inRegistry := true, enabled := true
    probeResult := Except.ok (PyVal.int 0), now := 10300 }

/-- Snapshot: engine running, condition registered and enabled, probe raises. -/
def envBoom : LoopEnv :=
  { running := true, inRegistry := true, enabled := true
    probeResult := Except.error "boom", now := 10100 }

/-- External readings where every probe reports 0. -/
def sysEnvZero : SysEnv :=
  { cpu_percent := fun _ => Except.ok (PyVal.int 0)
    available_memory := fun _ => Except.ok (PyVal.int 0)
    temperature := fun _ => Except.ok (PyVal.int 0)
    net_bytes := fun _ => Except.ok (PyVal.int 0) }

/-- Engine after two `always_fail` evaluations 0.1s apart (at 10.1s and 10.2s):
both fall in whole second 10. -/
def mTwo : ConditionMonitor :=
  ConditionMonitor.check_condition
    (ConditionMonitor.check_condition ConditionMonitor.init cAlways 10100)
    cAlways 10200

/-! ## Claim C1 -/

/-- C1 counterexample. The claim says no probe is invoked and no alert is
appended before the loop's first sleep completes. On the code, a running,
enabled, registered condition is evaluated first and the sleep comes after:
the events strictly before the first sleep are a probe invocation and an
alert append. -/
theorem claim_C1_counterexample :
    envActive.running = true ∧ envActive.enabled = true ∧ envActive.inRegistry = true
    ∧ (ConditionMonitor.monitor_loop cAlways [envActive]).takeWhile
        (fun ev => !(ev == LoopEvent.sleep))
      = [LoopEvent.probe,
         LoopEvent.alertAppended (ConditionMonitor.mkFailAlert cAlways (PyVal.int 0) 10100)] :=
  ⟨rfl, rfl, rfl, rfl⟩

/-- C1 (amended): the scheduling loop has an eager first check. Whenever an
iteration starts with the engine running and the condition enabled and
registered, the iteration evaluates the condition first (the probe invocation
is the first event) and only then sleeps for the interval. -/
theorem claim_C1 (c : Condition) (e : LoopEnv) (rest : List LoopEnv)
    (h1 : e.running = true) (h2 : e.enabled = true) (h3 : e.inRegistry = true) :
    ConditionMonitor.monitor_loop c (e :: rest)
      = ConditionMonitor.checkEvents c e
          ++ LoopEvent.sleep :: ConditionMonitor.monitor_loop c rest
    ∧ (ConditionMonitor.checkEvents c e).head? = some LoopEvent.probe := by
  constructor
  · simp [ConditionMonitor.monitor_loop, h1, h2, h3]
  · simp [ConditionMonitor.checkEvents]

/-- C1 witness: the amended theorem applied at a concrete iteration. -/
theorem claim_C1_witness :
    envActive.running = true ∧ envActive.enabled = true ∧ envActive.inRegistry = true
    ∧ ConditionMonitor.monitor_loop cAlways [envActive]
        = ConditionMonitor.checkEvents cAlways envActive
            ++ LoopEvent.sleep :: ConditionMonitor.monitor_loop cAlways []
    ∧ (ConditionMonitor.checkEvents cAlways envActive).head? = some LoopEvent.probe :=
  ⟨rfl, rfl, rfl, (claim_C1 cAlways envActive [] rfl rfl rfl).1,
    (claim_C1 cAlways envActive [] rfl rfl rfl).2⟩

/-! ## Claim C2 -/

/-- C2 counterexample. The claim says that once the condition is removed from
the registry, the loop's next wake transitions to TERMINATED even while the
running flag stays true. On the code, with the condition removed and the
engine running, the loop just skips evaluation and keeps sleeping: two
watched iterations produce two sleeps and no exit. -/
theorem claim_C2_counterexample :
    envRemoved.running = true ∧ envRemoved.inRegistry = false
    ∧ ConditionMonitor.monitor_loop cAlways [envRemoved, envRemoved]
        = [LoopEvent.sleep, LoopEvent.sleep]
    ∧ LoopEvent.exited ∉ ConditionMonitor.monitor_loop cAlways [envRemoved, envRemoved] := by
  refine ⟨rfl, rfl, rfl, ?_⟩
  decide

/-- C2 (amended): after removal the loop does not terminate while the engine
keeps running: an iteration that observes the condition absent from the
registry performs no probe and appends no alert, but only sleeps and
continues. The loop exits (TERMINATED) exactly when it observes the running
flag false. -/
theorem claim_C2 (c : Condition) (e f : LoopEnv) (rest : List LoopEnv)
    (hrun : e.running = true) (hreg : e.inRegistry = false)
    (hf : f.running = false) :
    ConditionMonitor.monitor_loop c (e :: rest)
      = LoopEvent.sleep :: ConditionMonitor.monitor_loop c rest
    ∧ ConditionMonitor.monitor_loop c (f :: rest) = [LoopEvent.exited] := by
  constructor
  · simp [ConditionMonitor.monitor_loop, hrun, hreg]
  · simp [ConditionMonitor.monitor_loop, hf]

/-- C2 witness: the amended theorem applied at concrete snapshots. -/
theorem claim_C2_witness :
    envRemoved.running = true ∧ envRemoved.inRegistry = false
    ∧ envStopped.running = false
    ∧ ConditionMonitor.monitor_loop cAlways [envRemoved]
        = LoopEvent.sleep :: ConditionMonitor.monitor_loop cAlways []
    ∧ ConditionMonitor.monitor_loop cAlways [envStopped] = [LoopEvent.exited] :=
  ⟨rfl, rfl, rfl, (claim_C2 cAlways envRemoved envStopped [] rfl rfl rfl).1,
    (claim_C2 cAlways envRemoved envStopped [] rfl rfl rfl).2⟩

/-! ## Claim C3 -/

/-- C3 counterexample. The claim says a second `start()` on a running engine
spawns no duplicate loop (at most one loop per condition name). On the code,
after a first `start()` the engine is running, and a second `start()` appends
another loop task for every condition: `cpu_usage` then has two loops. -/
theorem claim_C3_counterexample :
    (ConditionMonitor.start sysEnvZero ConditionMonitor.init).running = true
    ∧ ((ConditionMonitor.start sysEnvZero
          (ConditionMonitor.start sysEnvZero ConditionMonitor.init)).tasks.count
        "cpu_usage") = 2 :=
  ⟨rfl, rfl⟩

/-- C3 (amended): `start()` is not a no-op-safe re-entry. Every call sets the
running flag and unconditionally appends one loop task per condition in the
post-setup registry, so calling it again while running spawns duplicate loops
for every registered condition. -/
theorem claim_C3 (env : SysEnv) (m : ConditionMonitor) (name : String) :
    (ConditionMonitor.start env m).running = true
    ∧ (ConditionMonitor.start env m).tasks.count name
        = m.tasks.count name
          + ((ConditionMonitor.start env m).conditions.map Condition.name).count name := by
  refine ⟨rfl, ?_⟩
  simp only [ConditionMonitor.start, List.count_append]
  rfl

/-! ## Claim C4 -/

/-- C4: when the probe raises, exactly one alert is appended for that
evaluation, with severity ERROR regardless of the condition's configured
severity, current value the marker string "ERROR" and expected range "N/A";
the exception is contained and the loop proceeds to its sleep and continues. -/
theorem claim_C4 (m : ConditionMonitor) (c : Condition) (now : Nat) (msg : String)
    (e : LoopEnv) (rest : List LoopEnv)
    (hp : c.check_function () = Except.error msg)
    (he : e.probeResult = Except.error msg)
    (h1 : e.running = true) (h2 : e.enabled = true) (h3 : e.inRegistry = true) :
    ConditionMonitor.check_condition m c now
      = { m with alerts := m.alerts ++ [ConditionMonitor.mkErrorAlert c msg now] }
    ∧ (ConditionMonitor.mkErrorAlert c msg now).level = AlertLevel.ERROR
    ∧ (ConditionMonitor.mkErrorAlert c msg now).current_value = PyVal.str "ERROR"
    ∧ (ConditionMonitor.mkErrorAlert c msg now).expected_range = "N/A"
    ∧ ConditionMonitor.monitor_loop c (e :: rest)
        = LoopEvent.probe
            :: LoopEvent.alertAppended (ConditionMonitor.mkErrorAlert c msg e.now)
            :: LoopEvent.sleep :: ConditionMonitor.monitor_loop c rest := by
  refine ⟨?_, rfl, rfl, rfl, ?_⟩
  · simp [ConditionMonitor.check_condition, ConditionMonitor.evalOutcome, hp]
  · simp [ConditionMonitor.monitor_loop, h1, h2, h3,
      ConditionMonitor.checkEvents, ConditionMonitor.evalOutcome, he]

/-- C4 witness: a concrete raising probe. -/
theorem claim_C4_witness :
    cBoom.check_function () = Except.error "boom"
    ∧ envBoom.probeResult = Except.error "boom"
    ∧ envBoom.running = true ∧ envBoom.enabled = true ∧ envBoom.inRegistry = true
    ∧ ConditionMonitor.check_condition ConditionMonitor.init cBoom 10100
        = { ConditionMonitor.init with
              alerts := [ConditionMonitor.mkErrorAlert cBoom "boom" 10100] } :=
  ⟨rfl, rfl, rfl, rfl, rfl,
    (claim_C4 ConditionMonitor.init cBoom 10100 "boom" envBoom [] rfl rfl rfl rfl rfl).1⟩

/-! ## Claim C5 -/

/-- C5: for an enabled condition whose probe returns a value, a rejecting
validator yields exactly one appended alert whose severity is the condition's
configured severity and whose condition name is the condition's name, while
an accepting validator appends nothing (the state is unchanged). -/
theorem claim_C5 (m : ConditionMonitor) (c : Condition) (now : Nat) (v : PyVal) (b : Bool)
    (hp : c.check_function () = Except.ok v)
    (hv : c.validator v = Except.ok b) :
    ConditionMonitor.check_condition m c now
      = (if b then m
         else { m with alerts := m.alerts ++ [ConditionMonitor.mkFailAlert c v now] })
    ∧ (ConditionMonitor.mkFailAlert c v now).level = c.alert_level
    ∧ (ConditionMonitor.mkFailAlert c v now).condition_name = c.name := by
  refine ⟨?_, rfl, rfl⟩
  cases b <;> simp [ConditionMonitor.check_condition, ConditionMonitor.evalOutcome, hp, hv]

/-- C5 witness: the `always_fail` condition probing 0 against `x > 10`. -/
theorem claim_C5_witness :
    cAlways.check_function () = Except.ok (PyVal.int 0)
    ∧ cAlways.validator (PyVal.int 0) = Except.ok false
    ∧ ConditionMonitor.check_condition ConditionMonitor.init cAlways 10100
        = { ConditionMonitor.init with
              alerts := [ConditionMonitor.mkFailAlert cAlways (PyVal.int 0) 10100] } :=
  ⟨rfl, rfl,
    (claim_C5 ConditionMonitor.init cAlways 10100 (PyVal.int 0) false rfl rfl).1⟩

/-! ## Claim C6 -/

/-- C6: while a condition stays disabled, arbitrarily many loop iterations
invoke no probe and append no alert. -/
theorem claim_C6 (c : Condition) (envs : List LoopEnv)
    (hdis : ∀ e ∈ envs, e.enabled = false) :
    ∀ ev ∈ ConditionMonitor.monitor_loop c envs,
      ev ≠ LoopEvent.probe ∧ ∀ a : Alert, ev ≠ LoopEvent.alertAppended a := by
  induction envs with
  | nil =>
    intro ev hev
    simp [ConditionMonitor.monitor_loop] at hev
  | cons e rest ih =>
    intro ev hev
    have he : e.enabled = false := hdis e (List.mem_cons_self e rest)
    cases hr : e.running with
    | false =>
      simp [ConditionMonitor.monitor_loop, hr] at hev
      subst hev
      exact ⟨by simp, fun a => by simp⟩
    | true =>
      simp [ConditionMonitor.monitor_loop, hr, he] at hev
      rcases hev with h | h
      · subst h
        exact ⟨by simp, fun a => by simp⟩
      · exact ih (fun f hf => hdis f (List.mem_cons_of_mem e hf)) ev h

/-- C6 witness: a disabled iteration at a concrete snapshot. -/
theorem claim_C6_witness :
    (∀ e ∈ [envDisabled], e.enabled = false)
    ∧ ∀ ev ∈ ConditionMonitor.monitor_loop cAlways [envDisabled],
        ev ≠ LoopEvent.probe ∧ ∀ a : Alert, ev ≠ LoopEvent.alertAppended a :=
  ⟨by decide, claim_C6 cAlways [envDisabled] (by decide)⟩

/-! ## Claim C7 -/

lemma tsDesc_trans : ∀ a b c : Alert, tsDesc a b → tsDesc b c → tsDesc a c := by
  intro a b c hab hbc
  simp only [tsDesc, decide_eq_true_eq] at *
  omega

lemma tsDesc_total : ∀ a b : Alert, tsDesc a b || tsDesc b a := by
  intro a b
  simp only [tsDesc, Bool.or_eq_true, decide_eq_true_eq]
  omega

lemma get_alerts_none_eq (m : ConditionMonitor) (n : Nat) :
    ConditionMonitor.get_alerts m none n = (m.alerts.mergeSort tsDesc).take n := rfl

lemma get_alerts_some_eq (m : ConditionMonitor) (X : AlertLevel) (n : Nat) :
    ConditionMonitor.get_alerts m (some X) n
      = ((m.alerts.filter (fun a : Alert => a.level == X)).mergeSort tsDesc).take n := rfl

lemma get_alerts_some_full (m : ConditionMonitor) (X : AlertLevel) :
    ConditionMonitor.get_alerts m (some X) m.alerts.length
      = (m.alerts.filter (fun a : Alert => a.level == X)).mergeSort tsDesc := by
  rw [get_alerts_some_eq]
  apply List.take_of_length_le
  rw [List.length_mergeSort]
  exact List.length_filter_le _ _

/-- C7: `get_alerts` with no filter is sorted newest first (non-increasing
timestamps); with a severity filter it returns exactly the alerts of that
severity (every returned alert has the severity, and with an unrestricting
limit the result is a permutation of the log's alerts of that severity),
preserving relative order (any two filtered alerts already in newest-first
order in the log keep their order — stability); and every result is
truncated to at most `n` elements. -/
theorem claim_C7 (m : ConditionMonitor) (X : AlertLevel) (n : Nat) :
    List.Pairwise (fun a b : Alert => b.timestamp ≤ a.timestamp)
      (ConditionMonitor.get_alerts m none n)
    ∧ (∀ a ∈ ConditionMonitor.get_alerts m (some X) n, a.level = X)
    ∧ List.Perm (ConditionMonitor.get_alerts m (some X) m.alerts.length)
        (m.alerts.filter (fun a : Alert => a.level == X))
    ∧ (ConditionMonitor.get_alerts m none n).length ≤ n
    ∧ (ConditionMonitor.get_alerts m (some X) n).length ≤ n
    ∧ ∀ a b : Alert,
        List.Sublist [a, b] (m.alerts.filter (fun x : Alert => x.level == X)) →
        b.timestamp ≤ a.timestamp →
        List.Sublist [a, b] (ConditionMonitor.get_alerts m (some X) m.alerts.length) := by
  refine ⟨?_, ?_, ?_, ?_, ?_, ?_⟩
  · rw [get_alerts_none_eq]
    have hs := List.sorted_mergeSort tsDesc_trans tsDesc_total m.alerts
    have ht := List.Pairwise.sublist (List.take_sublist n _) hs
    exact ht.imp (fun h => by simpa [tsDesc] using h)
  · intro a ha
    rw [get_alerts_some_eq] at ha
    have hmem := (List.take_sublist _ _).subset ha
    rw [List.mem_mergeSort] at hmem
    have := List.of_mem_filter hmem
    simpa using this
  · rw [get_alerts_some_full]
    exact List.mergeSort_perm _ _
  · rw [get_alerts_none_eq, List.length_take]
    exact Nat.min_le_left _ _
  · rw [get_alerts_some_eq, List.length_take]
    exact Nat.min_le_left _ _
  · intro a b hsub hts
    rw [get_alerts_some_full]
    exact List.pair_sublist_mergeSort tsDesc_trans tsDesc_total
      (by simpa [tsDesc] using hts) hsub

/-- C7 witness: the sorted conjunct at a concrete two-alert log. -/
theorem claim_C7_witness :
    List.Pairwise (fun a b : Alert => b.timestamp ≤ a.timestamp)
      (ConditionMonitor.get_alerts mTwo none 100) :=
  (claim_C7 mTwo AlertLevel.WARNING 100).1

/-! ## Claim C8 -/

/-- C8 counterexample. The claim says alert ids are unique, even for two
alerts of one condition in successive 0.1s cycles. On the code the id suffix
is `int(time.time())` (whole seconds): the two `always_fail` alerts produced
at 10.1s and 10.2s are distinct alerts (their timestamps differ) yet carry
the identical id `alert_always_fail_10`. -/
theorem claim_C8_counterexample :
    mTwo.alerts.map Alert.id = ["alert_always_fail_10", "alert_always_fail_10"]
    ∧ mTwo.alerts.map Alert.timestamp = [10100, 10200] :=
  ⟨rfl, rfl⟩

/-- C8 (amended): alert ids are not unique. The id is the failure-kind prefix,
the condition name, and the floor of the evaluation time in whole seconds, so
any two alerts of the same condition and kind whose evaluation times fall in
the same whole second have identical ids. -/
theorem claim_C8 (c : Condition) (v1 v2 : PyVal) (m1 m2 : String) (t1 t2 : Nat)
    (h : t1 / 1000 = t2 / 1000) :
    (ConditionMonitor.mkFailAlert c v1 t1).id = (ConditionMonitor.mkFailAlert c v2 t2).id
    ∧ (ConditionMonitor.mkErrorAlert c m1 t1).id
        = (ConditionMonitor.mkErrorAlert c m2 t2).id := by
  constructor <;> simp [ConditionMonitor.mkFailAlert, ConditionMonitor.mkErrorAlert, h]

/-- C8 witness: 10.1s and 10.2s share whole second 10. -/
theorem claim_C8_witness :
    (10100 : Nat) / 1000 = (10200 : Nat) / 1000
    ∧ (ConditionMonitor.mkFailAlert cAlways (PyVal.int 0) 10100).id
        = (ConditionMonitor.mkFailAlert cAlways (PyVal.int 1) 10200).id
    ∧ (ConditionMonitor.mkErrorAlert cAlways "a" 10100).id
        = (ConditionMonitor.mkErrorAlert cAlways "b" 10200).id :=
  ⟨rfl, (claim_C8 cAlways (PyVal.int 0) (PyVal.int 1) "a" "b" 10100 10200 rfl).1,
    (claim_C8 cAlways (PyVal.int 0) (PyVal.int 1) "a" "b" 10100 10200 rfl).2⟩

/-! ## Claim C9 -/

/-- C9: `clear_alerts` empties the alert log — a `get_alerts` immediately
after returns the empty sequence, for any filter and limit — and leaves the
condition registry (and the rest of the engine state) unchanged. -/
theorem claim_C9 (m : ConditionMonitor) (lvl : Option AlertLevel) (lim : Nat) :
    ConditionMonitor.get_alerts (ConditionMonitor.clear_alerts m) lvl lim = []
    ∧ (ConditionMonitor.clear_alerts m).conditions = m.conditions
    ∧ (ConditionMonitor.clear_alerts m).running = m.running
    ∧ (ConditionMonitor.clear_alerts m).tasks = m.tasks := by
  refine ⟨?_, rfl, rfl, rfl⟩
  cases lvl <;> simp [ConditionMonitor.get_alerts, ConditionMonitor.clear_alerts]

/-! ## Claim C10 -/

/-- C10: when the probe succeeds but the validator itself raises, the engine
treats it exactly like a probe failure: exactly one alert is appended, with
severity ERROR, current value the marker string "ERROR" (the probe's returned
value is discarded), expected range "N/A", and the exception does not
propagate (the evaluation returns the updated state normally). -/
theorem claim_C10 (m : ConditionMonitor) (c : Condition) (now : Nat) (v : PyVal)
    (msg : String)
    (hp : c.check_function () = Except.ok v)
    (hv : c.validator v = Except.error msg) :
    ConditionMonitor.check_condition m c now
      = { m with alerts := m.alerts ++ [ConditionMonitor.mkErrorAlert c msg now] }
    ∧ (ConditionMonitor.mkErrorAlert c msg now).level = AlertLevel.ERROR
    ∧ (ConditionMonitor.mkErrorAlert c msg now).current_value = PyVal.str "ERROR"
    ∧ (ConditionMonitor.mkErrorAlert c msg now).expected_range = "N/A" := by
  refine ⟨?_, rfl, rfl, rfl⟩
  simp [ConditionMonitor.check_condition, ConditionMonitor.evalOutcome, hp, hv]

/-- C10 witness: a concrete raising validator. -/
theorem claim_C10_witness :
    cValBoom.check_function () = Except.ok (PyVal.int 5)
    ∧ cValBoom.validator (PyVal.int 5) = Except.error "TypeError"
    ∧ ConditionMonitor.check_condition ConditionMonitor.init cValBoom 7
        = { ConditionMonitor.init with
              alerts := [ConditionMonitor.mkErrorAlert cValBoom "TypeError" 7] } :=
  ⟨rfl, rfl,
    (claim_C10 ConditionMonitor.init cValBoom 7 (PyVal.int 5) "TypeError" rfl rfl).1⟩
